import Mathlib

/-!
Verification development for the grievance-management-system repository.

The conversational intake engine of `src/frontend/app.py`, the keyword
categorizer of `src/core/llm_handler.py`, the semantic retriever of
`src/core/rag_system.py` and the status-update operation of
`src/database/database.py` are shallowly embedded here.

Modelling conventions:
* Python strings are modelled as `List Char` (`Str`); the embedded code only
  exercises the ASCII fragment of Python's `str` methods (`lower`, `strip`,
  `isalpha`, `isdigit`, `split`), which the helpers below implement.
* Python regular-expression patterns are embedded as explicit matchers over
  `List Char` implementing leftmost search, greedy quantifiers and the
  backtracking the concrete patterns need; `re.findall` / `re.search` become
  `findAllM` / `searchM`.
* Python floats (similarity scores, confidences) are modelled as exact
  rationals `ℚ`; the claims at stake are order/threshold properties that do
  not depend on rounding.
* External collaborators (REST API, embedding model, LLM) are parameters:
  the submission API outcome is an `ApiResult` argument, the embedding
  model's cosine-similarity vector is a `List ℚ` argument, LLM availability
  is a `Bool` argument.
-/

namespace GMS

/-- Python strings are modelled as lists of characters. -/
abbrev Str := List Char

/-- Convert a Lean string literal to the character-list model. -/
def S (s : String) : Str := s.data

/-- ASCII decimal digit test (Python `str.isdigit` on the ASCII fragment);
codes 48-57 are the characters 0-9. -/
def isDigitC (c : Char) : Bool := 48 ≤ c.toNat && c.toNat ≤ 57

/-- ASCII letter test (Python `str.isalpha` on the ASCII fragment); codes
97-122 are a-z and 65-90 are A-Z. -/
def isAlphaC (c : Char) : Bool :=
  (97 ≤ c.toNat && c.toNat ≤ 122) || (65 ≤ c.toNat && c.toNat ≤ 90)

/-- Python regex `\s` / `str.strip` whitespace class: space, tab, newline,
carriage return, vertical tab, form feed (codes 32, 9, 10, 13, 11, 12). -/
def isSpaceC (c : Char) : Bool :=
  c.toNat = 32 || c.toNat = 9 || c.toNat = 10 || c.toNat = 13 ||
  c.toNat = 11 || c.toNat = 12

/-- Python regex word character `\w` on the ASCII fragment:
letters, digits and underscore (code 95). -/
def isWordC (c : Char) : Bool := isAlphaC c || isDigitC c || c.toNat = 95

/-- ASCII lower-casing of one character (Python `str.lower`, ASCII fragment). -/
def asciiLower (c : Char) : Char :=
  if 65 ≤ c.toNat && c.toNat ≤ 90 then Char.ofNat (c.toNat + 32) else c

/-- ASCII upper-casing of one character (Python `str.upper`, ASCII fragment). -/
def asciiUpper (c : Char) : Char :=
  if 97 ≤ c.toNat && c.toNat ≤ 122 then Char.ofNat (c.toNat - 32) else c

/-- Python `str.lower` on the character-list model. -/
def lowerL (l : Str) : Str := l.map asciiLower

/-- Python `str.upper` on the character-list model. -/
def upperL (l : Str) : Str := l.map asciiUpper

/-- Python `str.strip()`: drop leading and trailing whitespace. -/
def trimL (l : Str) : Str :=
  ((l.dropWhile isSpaceC).reverse.dropWhile isSpaceC).reverse

/-- Python `str.split()` with no argument: split on whitespace runs,
dropping empty pieces; `acc` accumulates the current word reversed. -/
def splitWsGo : Str → Str → List Str
  | [], acc => if acc.isEmpty then [] else [acc.reverse]
  | c :: t, acc =>
      if isSpaceC c then
        if acc.isEmpty then splitWsGo t [] else acc.reverse :: splitWsGo t []
      else splitWsGo t (c :: acc)

/-- Python `str.split()` with no argument. -/
def splitWs (l : Str) : List Str := splitWsGo l []

/-- Python `word.capitalize()`: upper-case the first character,
lower-case the rest. -/
def capitalizeW (w : Str) : Str :=
  match w with
  | [] => []
  | c :: rest => asciiUpper c :: lowerL rest

/-- Python substring membership `needle in hay` for non-empty needles:
some contiguous slice of `hay` equals `needle`. -/
def containsL (hay needle : Str) : Bool :=
  match hay with
  | [] => needle.isEmpty
  | _ :: t => needle.isPrefixOf hay || containsL t needle

/-- Python truthiness of an optional string: present and non-empty. -/
def truthy (o : Option Str) : Bool :=
  match o with
  | none => false
  | some s => !s.isEmpty

/-- Python `'sep' in s` combined with `s.split(sep, 1)[1]`: the remainder of
`s` after the first occurrence of the (non-empty) separator, or `none` when
the separator does not occur. -/
def afterFirstL (sep : Str) (s : Str) : Option Str :=
  match s with
  | [] => none
  | _ :: t => if sep.isPrefixOf s then some (s.drop sep.length) else afterFirstL sep t

/-- Embeds `validate_mobile` of `src/frontend/app.py`: the Python regex
`re.match` of an optional leading plus, a first digit 1-9 and 9 to 14
further digits, anchored on both sides, applied to the stripped input. -/
def validate_mobile (mobile : Str) : Bool :=
  let t := trimL mobile
  let digits := match t with
    | '+' :: r => r
    | r => r
  match digits with
  | [] => false
  | d :: rest =>
      ('1' ≤ d && d ≤ '9') && rest.all isDigitC &&
        (9 ≤ rest.length && rest.length ≤ 14)

/-- Embeds `validate_name` of `src/frontend/app.py`: stripped length in
[2,50], at least one letter, and not one of five known non-names. -/
def validate_name (name : Str) : Bool :=
  let n := trimL name
  if n.length < 2 || 50 < n.length then false
  else if !n.any isAlphaC then false
  else if [S "help", S "what", S "yes", S "no", S "ok"].contains (lowerL n) then false
  else true

/-! ### Regex matcher infrastructure

Each Python pattern of the Field Extractor is embedded as an explicit
matcher.  A continuation (`Cont`) consumes a prefix of the input and
returns the consumed length together with the text of the capture group;
choice points of the original pattern (alternations, optional pieces,
counted repetitions that need backtracking) enumerate their alternatives in
the greedy order Python uses.  Greedy class repetitions followed by a piece
whose first character class is disjoint are implemented as maximal runs,
which is equivalent to backtracking for those patterns. -/

/-- Length of the run of characters satisfying `p` at the head of `l`. -/
def countWhile (p : Char → Bool) (l : Str) : Nat := (l.takeWhile p).length

/-- The list hi, hi-1, ..., lo (empty when hi < lo): the greedy order in
which a counted repetition tries its repeat counts. -/
def countdownTo (hi lo : Nat) : List Nat :=
  (List.range (hi + 1 - lo)).map (fun i => hi - i)

/-- A partial-pattern continuation: consumed length and capture text. -/
abbrev Cont := Str → Option (Nat × Str)

/-- A matcher attempts an anchored match at the current position; `prev` is
the character just before the position (`none` at string start), needed for
the word-boundary assertion and the caret anchor. -/
abbrev Matcher := Option Char → Str → Option (Nat × Str)

/-- Epsilon continuation: ends the pattern. -/
def endM : Cont := fun _ => some (0, [])

/-- Dollar anchor: end of string, or just before a final newline. -/
def requireEndM : Cont := fun l => if l.isEmpty || l = ['\n'] then some (0, []) else none

/-- Case-sensitive literal, then continuation. -/
def litThen (w : Str) (cont : Cont) : Cont := fun l =>
  if w.length ≤ l.length && l.take w.length = w then
    (cont (l.drop w.length)).map (fun r => (w.length + r.1, r.2))
  else none

/-- Case-insensitive literal (given lowercased), then continuation. -/
def litCIThen (w : Str) (cont : Cont) : Cont := fun l =>
  if w.length ≤ l.length && lowerL (l.take w.length) = w then
    (cont (l.drop w.length)).map (fun r => (w.length + r.1, r.2))
  else none

/-- Case-insensitive alternation of literals, in the written order, then
continuation. -/
def altCIThen (ws : List Str) (cont : Cont) : Cont := fun l =>
  ws.findSome? (fun w => litCIThen w cont l)

/-- Optional case-sensitive literal (greedy), then continuation. -/
def optLitThen (w : Str) (cont : Cont) : Cont := fun l =>
  litThen w cont l <|> cont l

/-- Optional single character of class `p` (greedy), then continuation. -/
def optClsThen (p : Char → Bool) (cont : Cont) : Cont := fun l =>
  match l with
  | c :: t => if p c then ((cont t).map (fun r => (r.1 + 1, r.2))) <|> cont l else cont l
  | [] => cont l

/-- Exactly `k` decimal digits, then continuation. -/
def digitsExactThen (k : Nat) (cont : Cont) : Cont := fun l =>
  if k ≤ countWhile isDigitC l then
    (cont (l.drop k)).map (fun r => (k + r.1, r.2))
  else none

/-- Greedy class repetition with counts in [lo, hi] standing at the end of
the pattern: consumes min(run, hi) characters, requires at least lo; the
capture is the consumed text. -/
def clsCapGreedy (p : Char → Bool) (lo hi : Nat) : Cont := fun l =>
  let n := countWhile p l
  if lo ≤ n then some (min n hi, l.take (min n hi)) else none

/-- One-or-more whitespace (maximal), then a continuation that cannot begin
with whitespace. -/
def wsPlusThen (cont : Cont) : Cont := fun l =>
  let n := countWhile isSpaceC l
  if n = 0 then none
  else (cont (l.drop n)).map (fun r => (n + r.1, r.2))

/-- Zero-or-more whitespace (maximal), then a continuation that cannot
begin with whitespace. -/
def wsStarThen (cont : Cont) : Cont := fun l =>
  let n := countWhile isSpaceC l
  (cont (l.drop n)).map (fun r => (n + r.1, r.2))

/-- One-or-more whitespace with greedy backtracking over the split, for a
continuation whose class contains whitespace. -/
def wsPlusThenBack (cont : Cont) : Cont := fun l =>
  let n := countWhile isSpaceC l
  (countdownTo n 1).findSome? fun k =>
    (cont (l.drop k)).map (fun r => (k + r.1, r.2))

/-- Turn a continuation into a position-insensitive matcher whose capture
group is the whole match. -/
def wholeCap (m : Cont) : Matcher := fun _ l =>
  (m l).map (fun r => (r.1, l.take r.1))

/-- Leftmost search: try the matcher at every position from the left,
returning the first capture (Python re.search). -/
def searchA (m : Matcher) : Option Char → Str → Option Str
  | prev, [] => (m prev []).map (fun r => r.2)
  | prev, c :: t =>
      match m prev (c :: t) with
      | some r => some r.2
      | none => searchA m (some c) t

/-- Python re.search from the start of the string. -/
def searchFirst (m : Matcher) (l : Str) : Option Str := searchA m none l

/-- Python re.findall: scan left to right collecting non-overlapping
matches, resuming after each match.  Fueled; the initial fuel of
length + 1 is enough because every match of the embedded patterns
consumes at least one character. -/
def findAllA (m : Matcher) : Nat → Option Char → Str → List Str
  | 0, _, _ => []
  | _ + 1, prev, [] => ((m prev []).map (fun r => [r.2])).getD []
  | fuel + 1, prev, c :: t =>
      match m prev (c :: t) with
      | some (n, cap) =>
          if n = 0 then cap :: findAllA m fuel (some c) t
          else cap :: findAllA m fuel (((c :: t).take n).getLast?) ((c :: t).drop n)
      | none => findAllA m fuel (some c) t

/-- Python re.findall over the whole string. -/
def findAll (m : Matcher) (l : Str) : List Str := findAllA m (l.length + 1) none l

/-! ### Field Extractor: IntentBasedResponseSystem.extract_information -/

/-- Separator class of the mobile patterns: dash (code 45), dot (code 46)
or whitespace. -/
def isSepC (c : Char) : Bool := c.toNat = 45 || c.toNat = 46 || isSpaceC c

/-- Character class removed by the mobile clean-up re.sub: dash, dot,
whitespace and parentheses (codes 40 and 41). -/
def isMobileJunk (c : Char) : Bool := isSepC c || c.toNat = 40 || c.toNat = 41

/-- The clean-up re.sub of the mobile extraction: drop separators and
parentheses. -/
def cleanMobile (l : Str) : Str := l.filter (fun c => !isMobileJunk c)

/-- Python str.isdigit: non-empty and all decimal digits. -/
def pyIsdigit (l : Str) : Bool := !l.isEmpty && l.all isDigitC

/-- Optional separator (greedy), then continuation. -/
def optSepThen (cont : Cont) : Cont := optClsThen isSepC cont

/-- Mobile pattern 1 of extract_information: plus sign, one to four digits
of country code (greedy, with backtracking), an optional separator, then
ten to fourteen digits. -/
def mobilePat1 : Matcher := fun _ l =>
  match l with
  | c :: r =>
      if c = '+' then
        ((countdownTo 4 1).findSome? fun k =>
          digitsExactThen k (optSepThen (clsCapGreedy isDigitC 10 14)) r).map
          (fun p => (p.1 + 1, l.take (p.1 + 1)))
      else none
  | [] => none

/-- Mobile pattern 2 of extract_information: plus sign, one to four digits,
an optional single whitespace, then ten to fourteen digits. -/
def mobilePat2 : Matcher := fun _ l =>
  match l with
  | c :: r =>
      if c = '+' then
        ((countdownTo 4 1).findSome? fun k =>
          digitsExactThen k (optClsThen isSpaceC (clsCapGreedy isDigitC 10 14)) r).map
          (fun p => (p.1 + 1, l.take (p.1 + 1)))
      else none
  | [] => none

/-- Mobile pattern 3 of extract_information: the US shape of three digits,
optional separator, three digits, optional separator, four digits. -/
def mobilePat3 : Matcher :=
  wholeCap (digitsExactThen 3 (optSepThen (digitsExactThen 3 (optSepThen
    (digitsExactThen 4 endM)))))

/-- Mobile pattern 4 of extract_information: ten to fifteen bare digits. -/
def mobilePat4 : Matcher := wholeCap (clsCapGreedy isDigitC 10 15)

/-- Mobile pattern 5 of extract_information: parenthesized area code,
optional space, three digits, optional separator, four digits. -/
def mobilePat5 : Matcher := fun _ l =>
  match l with
  | c :: r =>
      if c = '(' then
        (digitsExactThen 3 (litThen [')'] (optClsThen isSpaceC
          (digitsExactThen 3 (optSepThen (digitsExactThen 4 endM))))) r).map
          (fun p => (p.1 + 1, l.take (p.1 + 1)))
      else none
  | [] => none

/-- The candidate acceptance test of the mobile loop: the cleaned digits
must number between ten and fifteen and be all digits. -/
def mobileCandOk (cand : Str) : Bool :=
  let c := cleanMobile (trimL cand)
  10 ≤ c.length && c.length ≤ 15 && pyIsdigit c

/-- The cleaned value stored for an accepted candidate. -/
def mobileCandVal (cand : Str) : Str := cleanMobile (trimL cand)

/-- Mobile extraction of extract_information: patterns in order, candidates
of each pattern in match order, first candidate passing the acceptance
test. -/
def extractMobileEI (msg : Str) : Option Str :=
  [mobilePat1, mobilePat2, mobilePat3, mobilePat4, mobilePat5].findSome?
    (fun p => ((findAll p msg).find? mobileCandOk).map mobileCandVal)

/-- Alphanumeric class [A-Z0-9] under IGNORECASE: letters and digits. -/
def isAlnumC (c : Char) : Bool := isAlphaC c || isDigitC c

/-- Word-boundary assertion between two optional characters. -/
def wordBoundary (a b : Option Char) : Bool :=
  (match a with | some c => isWordC c | none => false) !=
  (match b with | some c => isWordC c | none => false)

/-- Complaint-identifier pattern 1 of extract_information: word boundary,
CMP (case-insensitive), eight to ten alphanumerics (greedy, backtracking),
word boundary. -/
def cmpIdPat1 : Matcher := fun prev l =>
  if (match prev with | some p => isWordC p | none => false) then none
  else
    litCIThen (S "cmp") (fun r =>
      let run := countWhile isAlnumC r
      (countdownTo (min run 10) 8).findSome? fun k =>
        if wordBoundary ((r.take k).getLast?) ((r.drop k).head?) then
          some (k, [])
        else none) l |>.map (fun p => (p.1, l.take p.1))

/-- Complaint-identifier pattern 2 of extract_information: written with a
lowercase cmp literal but compiled with IGNORECASE, hence the same
semantics as pattern 1. -/
def cmpIdPat2 : Matcher := cmpIdPat1

/-- Complaint-identifier pattern 3 of extract_information: the word
complaint, whitespace, an optional id or number, optional colon with
whitespace, then ten to twelve alphanumerics (the capture). -/
def cmpIdPat3 : Matcher := fun _ l =>
  litCIThen (S "complaint") (wsPlusThen (fun r =>
    (altCIThen [S "id", S "number"] (wsStarThen (optLitThen [':']
       (wsStarThen (clsCapGreedy isAlnumC 10 12)))) r) <|>
    (wsStarThen (optLitThen [':'] (wsStarThen (clsCapGreedy isAlnumC 10 12))) r))) l

/-- Complaint-identifier extraction of extract_information: first pattern
whose search succeeds; the capture is upper-cased. -/
def extractComplaintIdEI (msg : Str) : Option Str :=
  ([cmpIdPat1, cmpIdPat2, cmpIdPat3].findSome?
    (fun p => searchFirst p msg)).map upperL

/-- Name capture group of extract_information patterns: a letter followed
by one to forty letters or spaces (greedy). -/
def nameCapture : Cont := fun l =>
  match l with
  | c :: t =>
      if isAlphaC c then
        let n := countWhile (fun d => isAlphaC d || isSpaceC d) t
        if 1 ≤ n then some (1 + min n 40, l.take (1 + min n 40)) else none
      else none
  | [] => none

/-- Name pattern 1 of extract_information: an introduction phrase, then
whitespace, then the name capture. -/
def namePat1 : Matcher := fun _ l =>
  altCIThen [S "i\x27m", S "i am", S "my name is", S "name is", S "call me"]
    (wsPlusThen nameCapture) l

/-- One group of the proper-case name pattern: whitespace then a run of at
least two letters (case-insensitive). -/
def nameGroupChunk (cont : Cont) : Cont := fun l =>
  let w := countWhile isSpaceC l
  if w = 0 then none
  else
    let r := l.drop w
    let a := countWhile isAlphaC r
    if a < 2 then none
    else (cont (r.drop a)).map (fun p => (w + a + p.1, p.2))

/-- Up to `k` further name groups, greedy, then the dollar anchor. -/
def nameGroupsEnd : Nat → Cont
  | 0 => requireEndM
  | k + 1 => fun l => nameGroupChunk (nameGroupsEnd k) l <|> requireEndM l

/-- Name pattern 2 of extract_information: anchored proper-case name of two
to four words (IGNORECASE makes the letter classes case-blind), ending at
the dollar anchor. -/
def namePat2 : Matcher := fun prev l =>
  match prev with
  | some _ => none
  | none =>
      (let a := countWhile isAlphaC l
       if a < 2 then none
       else (nameGroupChunk (nameGroupsEnd 2) (l.drop a)).map
         (fun p => (a + p.1, p.2))).map (fun p => (p.1, l.take p.1))

/-- Name pattern 3 of extract_information: a name colon prefix, optional
whitespace, then the name capture. -/
def namePat3 : Matcher := fun _ l =>
  litCIThen (S "name:") (wsStarThen nameCapture) l

/-- Name pattern 4 of extract_information: hi with optional comma,
whitespace, an introduction phrase, whitespace, then the name capture. -/
def namePat4 : Matcher := fun _ l =>
  litCIThen (S "hi") (optLitThen [','] (wsPlusThen
    (altCIThen [S "i\x27m", S "i am"] (wsPlusThen nameCapture)))) l

/-- The denylist of the pattern-based name validation in
extract_information. -/
def nonNamesEI : List Str :=
  [S "help", S "what", S "how", S "when", S "where", S "why",
   S "yes", S "no", S "ok", S "okay"]

/-- Join words with single spaces (Python str.join). -/
def joinSpace (ws : List Str) : Str := List.intercalate [' '] ws

/-- The validation applied to a pattern-extracted name candidate: one to
four words, each two to twenty letters, none in the denylist; the accepted
value capitalizes each word. -/
def validNameEI (cap : Str) : Option Str :=
  let name := trimL cap
  let ws := splitWs name
  if (1 ≤ ws.length && ws.length ≤ 4) &&
     ws.all (fun w => (2 ≤ w.length && w.length ≤ 20) && w.all isAlphaC) &&
     !(ws.any (fun w => nonNamesEI.contains (lowerL w))) then
    some (joinSpace (ws.map capitalizeW))
  else none

/-- The whole-message denylist of tier (a). -/
def nonNamePhrases : List Str :=
  [S "yes", S "no", S "ok", S "okay", S "sure", S "hello", S "hi",
   S "help", S "what", S "how"]

/-- Tier (a) of the name extraction in extract_information: if the whole
stripped message is at most four words of letters and spaces, total length
two to forty, every word at least two letters, and the message is not a
denylisted phrase, the capitalized message is taken as the name. -/
def tierAName (msg : Str) : Option Str :=
  let om := trimL msg
  let words := splitWs om
  if (words.length ≤ 4 &&
      (om.all (fun c => isAlphaC c || isSpaceC c) &&
       (2 ≤ om.length && om.length ≤ 40))) &&
     words.all (fun w => 2 ≤ w.length) &&
     words.all (fun w => w.all isAlphaC) &&
     !(nonNamePhrases.contains (lowerL om)) then
    some (joinSpace (words.map capitalizeW))
  else none

/-- Name extraction of extract_information: tier (a) first, then the
pattern loop, whose first validated hit overwrites the tier (a) value. -/
def extractNameEI (msg : Str) : Option Str :=
  (([namePat1, namePat2, namePat3, namePat4].findSome?
     (fun p => (searchFirst p msg).bind validNameEI))) <|> tierAName msg

/-- Local-part character class of the email pattern. -/
def localCls (c : Char) : Bool :=
  isAlnumC c || c = '.' || c = '_' || c = '%' || c = '+' || c = '-'

/-- Domain character class of the email pattern. -/
def domCls (c : Char) : Bool := isAlnumC c || c = '.' || c = '-'

/-- Top-level-domain class of the email pattern; the source class
[A-Z|a-z] literally includes the pipe character. -/
def tldCls (c : Char) : Bool := isAlphaC c || c = '|'

/-- Email pattern 1 of extract_information: word boundary, local part,
at sign, domain with backtracking over the dot before the TLD, a TLD of at
least two class characters, word boundary. -/
def emailPat1 : Matcher := fun prev l =>
  match l.head? with
  | none => none
  | some c0 =>
    if !(wordBoundary prev (some c0)) then none
    else
      let n1 := countWhile localCls l
      if n1 = 0 then none
      else
        match l.drop n1 with
        | '@' :: r2 =>
          let n2 := countWhile domCls r2
          (countdownTo n2 1).findSome? fun k2 =>
            match r2.drop k2 with
            | '.' :: r3 =>
              let n3 := countWhile tldCls r3
              (countdownTo n3 2).findSome? fun k3 =>
                if wordBoundary ((r3.take k3).getLast?) ((r3.drop k3).head?) then
                  some (n1 + 1 + k2 + 1 + k3, l.take (n1 + 1 + k2 + 1 + k3))
                else none
            | _ => none
        | _ => none

/-- The email core without boundary assertions, maximal TLD, used by email
pattern 2. -/
def emailCoreNoB : Cont := fun l =>
  let n1 := countWhile localCls l
  if n1 = 0 then none
  else
    match l.drop n1 with
    | '@' :: r2 =>
      let n2 := countWhile domCls r2
      (countdownTo n2 1).findSome? fun k2 =>
        match r2.drop k2 with
        | '.' :: r3 =>
          let n3 := countWhile tldCls r3
          if 2 ≤ n3 then
            some (n1 + 1 + k2 + 1 + n3, l.take (n1 + 1 + k2 + 1 + n3))
          else none
        | _ => none
    | _ => none

/-- Email pattern 2 of extract_information: a literal email colon prefix,
optional whitespace, then the email core. -/
def emailPat2 : Matcher := fun _ l =>
  litThen (S "email:") (wsStarThen emailCoreNoB) l

/-- Email extraction of extract_information: first matching pattern,
lower-cased capture. -/
def extractEmailEI (msg : Str) : Option Str :=
  ([emailPat1, emailPat2].findSome? (fun p => searchFirst p msg)).map lowerL

/-- Urgency extraction of extract_information: urgent or emergency, else
asap or immediately, sets high urgency. -/
def extractUrgencyEI (msg : Str) : Option Str :=
  let ml := lowerL msg
  if containsL ml (S "urgent") || containsL ml (S "emergency") then some (S "high")
  else if containsL ml (S "asap") || containsL ml (S "immediately") then some (S "high")
  else none

/-- The mapping returned by extract_information; absent fields are none. -/
structure ExtractedInfo where
  mobile : Option Str := none
  complaint_id : Option Str := none
  name : Option Str := none
  email : Option Str := none
  urgency : Option Str := none
deriving Repr, DecidableEq

/-- Embeds IntentBasedResponseSystem.extract_information of
src/frontend/app.py: opportunistic extraction of mobile, complaint
identifier, name, email and urgency from a raw user message. -/
def extract_information (user_message : Str) : ExtractedInfo :=
  { mobile := extractMobileEI user_message
    complaint_id := extractComplaintIdEI user_message
    name := extractNameEI user_message
    email := extractEmailEI user_message
    urgency := extractUrgencyEI user_message }

/-! ### Field Extractor: extract_user_details (the module-level variant) -/

/-- The mapping returned by extract_user_details. -/
structure ExtractedUD where
  mobile : Option Str := none
  name : Option Str := none
  complaint_id : Option Str := none
deriving Repr, DecidableEq

/-- Mobile pattern 1 of extract_user_details: plus sign, one to three
digits, optional separator, ten to fourteen digits. -/
def udMobilePat1 : Matcher := fun _ l =>
  match l with
  | c :: r =>
      if c = '+' then
        ((countdownTo 3 1).findSome? fun k =>
          digitsExactThen k (optSepThen (clsCapGreedy isDigitC 10 14)) r).map
          (fun p => (p.1 + 1, l.take (p.1 + 1)))
      else none
  | [] => none

/-- Mobile pattern 2 of extract_user_details: ten to fifteen digits between
word boundaries (greedy, with backtracking). -/
def udMobilePat2 : Matcher := fun prev l =>
  match l.head? with
  | none => none
  | some c0 =>
      if !(wordBoundary prev (some c0)) then none
      else
        let n := countWhile isDigitC l
        (countdownTo (min n 15) 10).findSome? fun k =>
          if wordBoundary ((l.take k).getLast?) ((l.drop k).head?) then
            some (k, l.take k)
          else none

/-- Mobile pattern 3 of extract_user_details: identical to mobile pattern 5
of extract_information (parenthesized area code). -/
def udMobilePat3 : Matcher := mobilePat5

/-- Mobile extraction of extract_user_details: first pattern whose search
yields a match whose cleaned form has at least ten characters; the stored
value is the cleaned form. -/
def extractMobileUD (message : Str) : Option Str :=
  [udMobilePat1, udMobilePat2, udMobilePat3].findSome? fun p =>
    (searchFirst p message).bind fun m =>
      let mobile := cleanMobile m
      if 10 ≤ mobile.length then some mobile else none

/-- Python str.isalpha: non-empty and all letters. -/
def pyIsalpha (l : Str) : Bool := !l.isEmpty && l.all isAlphaC

/-- Name capture of extract_user_details pattern 1: two to thirty letters
or spaces (the class itself contains whitespace). -/
def udNameCapture : Cont := clsCapGreedy (fun d => isAlphaC d || isSpaceC d) 2 30

/-- Name pattern 1 of extract_user_details: an introduction phrase, then
whitespace (with backtracking over the split, since the capture class also
contains whitespace), then the capture. -/
def udNamePat1 : Matcher := fun _ l =>
  altCIThen [S "my name is", S "i am", S "i\x27m", S "name is", S "call me"]
    (wsPlusThenBack udNameCapture) l

/-- One whitespace-then-word chunk: maximal whitespace run followed by a
run of at least two letters; returns the consumed length. -/
def chunkOnce (l : Str) : Option Nat :=
  let w := countWhile isSpaceC l
  if w = 0 then none
  else
    let r := l.drop w
    let a := countWhile isAlphaC r
    if a < 2 then none else some (w + a)

/-- One or more greedy whitespace-then-word chunks (the unbounded
one-or-more group of extract_user_details name pattern 2), fueled by the
input length. -/
def chunksPlus : Nat → Str → Option Nat
  | 0, _ => none
  | fuel + 1, l =>
      match chunkOnce l with
      | none => none
      | some n =>
          match chunksPlus fuel (l.drop n) with
          | some m => some (n + m)
          | none => some n

/-- Name pattern 2 of extract_user_details: anchored at the string start, a
word of at least two letters then one or more further words (IGNORECASE
makes the letter classes case-blind); the capture is the whole match. -/
def udNamePat2 : Matcher := fun prev l =>
  match prev with
  | some _ => none
  | none =>
      let a := countWhile isAlphaC l
      if a < 2 then none
      else (chunksPlus l.length (l.drop a)).map
        (fun n => (a + n, l.take (a + n)))

/-- The validation applied to a name candidate in extract_user_details:
stripped length at least two and all letters once spaces are removed; the
stored value is the stripped candidate. -/
def validNameUD (cap : Str) : Option Str :=
  let name := trimL cap
  if 2 ≤ name.length && pyIsalpha (name.filter (fun c => c ≠ ' ')) then
    some name
  else none

/-- Name extraction of extract_user_details: the two patterns in order,
first validated search hit. -/
def extractNameUD (message : Str) : Option Str :=
  [udNamePat1, udNamePat2].findSome? fun p =>
    (searchFirst p message).bind validNameUD

/-- Upper-case alphanumeric class [A-Z0-9], case-sensitive. -/
def isUpperAlnum (c : Char) : Bool := ('A' ≤ c && c ≤ 'Z') || isDigitC c

/-- The complaint-identifier pattern of extract_user_details: CMP followed
by exactly eight upper-case alphanumerics, searched in the upper-cased
message. -/
def udCmpIdPat : Matcher :=
  wholeCap (litThen (S "CMP") (digitsLikeExact8))
where
  digitsLikeExact8 : Cont := fun l =>
    if 8 ≤ countWhile isUpperAlnum l then some (8, []) else none

/-- Complaint-identifier extraction of extract_user_details. -/
def extractCidUD (message : Str) : Option Str :=
  searchFirst udCmpIdPat (upperL message)

/-- Embeds extract_user_details of src/frontend/app.py. -/
def extract_user_details (message : Str) : ExtractedUD :=
  { mobile := extractMobileUD message
    name := extractNameUD message
    complaint_id := extractCidUD message }

/-! ### Session state and intent classification -/

/-- Modelled from the spec: the UserContext class lives in
models/models.py, which is not under src/; section 3 of the specification
describes it as the per-session slot-filling state with optional name,
mobile and complaint_details and a current_step starting at initial.  The
step is kept as a string, as in the code that consumes it. -/
structure UserContext where
  name : Option Str := none
  mobile : Option Str := none
  complaint_details : Option Str := none
  current_step : Str := S "initial"
deriving Repr, DecidableEq

/-- A fresh UserContext, as constructed by UserContext() on reset. -/
def UserContext.fresh : UserContext := {}

/-- The result triple of smart_intent_detection. -/
structure IntentResult where
  intent : Str
  extracted_info : ExtractedUD
  confidence : ℚ
deriving Repr, DecidableEq

/-- Substring keyword test: some keyword occurs in the lowered message. -/
def kwAny (message_lower : Str) (kws : List Str) : Bool :=
  kws.any (fun k => containsL message_lower k)

/-- The registration keyword list of smart_intent_detection. -/
def registration_keywords : List Str :=
  [S "complaint", S "complain", S "issue", S "problem", S "register",
   S "file", S "report", S "submit", S "lodge", S "raise", S "create",
   S "new complaint", S "have a problem", S "facing issue",
   S "not working", S "broken", S "error", S "bug", S "fault"]

/-- The status keyword list of smart_intent_detection. -/
def status_keywords : List Str :=
  [S "status", S "check", S "update", S "progress", S "what\x27s",
   S "how\x27s", S "where is", S "track", S "follow up", S "any update",
   S "current status"]

/-- Embeds smart_intent_detection of src/frontend/app.py: context-aware
rule chain evaluated top to bottom, first match wins. -/
def smart_intent_detection (message : Str) (context : UserContext) : IntentResult :=
  let message_lower := lowerL message
  let extracted_details := extract_user_details message
  if context.current_step ≠ S "initial" then
    ⟨S "continue_registration", extracted_details, mkRat 9 10⟩
  else if truthy extracted_details.complaint_id then
    ⟨S "check_status_by_id", extracted_details, mkRat 95 100⟩
  else if truthy extracted_details.mobile &&
          kwAny message_lower [S "status", S "check", S "my complaints"] then
    ⟨S "check_status_by_mobile", extracted_details, mkRat 9 10⟩
  else if kwAny message_lower registration_keywords then
    ⟨S "register_complaint", extracted_details, mkRat 85 100⟩
  else if kwAny message_lower status_keywords then
    ⟨S "check_status", extracted_details, mkRat 8 10⟩
  else if kwAny message_lower [S "help", S "how", S "what", S "guide", S "instructions"] then
    ⟨S "help", extracted_details, mkRat 7 10⟩
  else if kwAny message_lower [S "hello", S "hi", S "hey", S "good morning", S "good afternoon"] then
    ⟨S "greeting", extracted_details, mkRat 7 10⟩
  else
    ⟨S "general", extracted_details, mkRat 5 10⟩

/-! ### Complaint categorization: LLMHandler.categorize_complaint -/

/-- Modelled from the spec: the ComplaintCategory enum lives in
models/models.py, which is not under src/; its members and string values
are those used throughout src (the fixed category set Hardware, Software,
Network, Account, Billing, Service, Other). -/
inductive ComplaintCategory
  | Hardware | Software | Network | Account | Billing | Service | Other
deriving Repr, DecidableEq

/-- The string value of a category member. -/
def ComplaintCategory.val : ComplaintCategory → Str
  | .Hardware => S "Hardware"
  | .Software => S "Software"
  | .Network => S "Network"
  | .Account => S "Account"
  | .Billing => S "Billing"
  | .Service => S "Service"
  | .Other => S "Other"

/-- The hardware keyword group of categorize_complaint. -/
def hardware_words : List Str :=
  [S "laptop", S "computer", S "hardware", S "mouse", S "keyboard", S "screen"]

/-- The software keyword group of categorize_complaint. -/
def software_words : List Str :=
  [S "software", S "application", S "app", S "program", S "bug"]

/-- The network keyword group of categorize_complaint. -/
def network_words : List Str :=
  [S "internet", S "network", S "wifi", S "connection", S "slow"]

/-- The account keyword group of categorize_complaint. -/
def account_words : List Str :=
  [S "account", S "login", S "password", S "access"]

/-- The billing keyword group of categorize_complaint. -/
def billing_words : List Str :=
  [S "bill", S "payment", S "charge", S "refund"]

/-- The service keyword group of categorize_complaint. -/
def service_words : List Str :=
  [S "service", S "support", S "help", S "assistance"]

/-- Embeds LLMHandler.categorize_complaint of src/core/llm_handler.py:
keyword groups evaluated in a fixed order over the lowered details. -/
def categorize_complaint (complaint_details : Str) : ComplaintCategory :=
  let dl := lowerL complaint_details
  if kwAny dl hardware_words then .Hardware
  else if kwAny dl software_words then .Software
  else if kwAny dl network_words then .Network
  else if kwAny dl account_words then .Account
  else if kwAny dl billing_words then .Billing
  else if kwAny dl service_words then .Service
  else .Other

/-! ### Registration State Machine -/

/-- Outcome of the external register_complaint_api call (the persistence
collaborator behind the REST endpoint), passed in as a parameter. -/
inductive ApiResult
  | ok (complaint_id : Str)
  | err (error : Str)
deriving Repr, DecidableEq

/-- The replies the registration flow can produce, one constructor per
return site of the handlers. -/
inductive Response
  | submitted (complaint_id name mobile details category : Str)
  | submissionFailed (error : Str)
  | infoSummary (name mobile details : Option Str) (missing : List Str)
  | thanksAskMobile (name : Str)
  | thanksAskDetails (name : Str)
  | invalidName
  | mobileRecordedAskDetails (mobile : Str)
  | invalidMobile
  | insufficientDetails
  | fallbackPrompt
deriving Repr, DecidableEq

/-- Embeds process_complaint_registration of src/frontend/app.py: set the
step to processing, categorize (via the LLM handler when available, with
Other on an absent handler or a raised exception), call the registration
API, and on both outcomes replace the session context by a fresh
UserContext. -/
def process_complaint_registration (context : UserContext) (llm : Bool)
    (api : ApiResult) : UserContext × Response :=
  let context := { context with current_step := S "processing" }
  let category_value : Str :=
    if llm then
      match context.complaint_details with
      | some d => (categorize_complaint d).val
      | none => S "Other"
    else S "Other"
  match api with
  | .ok cid =>
      (UserContext.fresh,
       .submitted cid (context.name.getD []) (context.mobile.getD [])
         (context.complaint_details.getD []) category_value)
  | .err e => (UserContext.fresh, .submissionFailed e)

/-- The Python expression extracted_info.get(key) or user_message.strip():
the extracted value when present and non-empty, else the stripped message. -/
def slotCandidate (extracted : Option Str) (user_message : Str) : Str :=
  match extracted with
  | some s => if !s.isEmpty then s else trimL user_message
  | none => trimL user_message

/-- Embeds handle_step_by_step_collection of src/frontend/app.py. -/
def handle_step_by_step_collection (user_message : Str) (context : UserContext)
    (extracted_info : ExtractedInfo) (llm : Bool) (api : ApiResult) :
    UserContext × Response :=
  if context.current_step = S "collecting_name" then
    let name := slotCandidate extracted_info.name user_message
    if validate_name name then
      let context := { context with name := some name }
      if !truthy context.mobile then
        ({ context with current_step := S "collecting_mobile" }, .thanksAskMobile name)
      else if !truthy context.complaint_details then
        ({ context with current_step := S "collecting_details" }, .thanksAskDetails name)
      else process_complaint_registration context llm api
    else (context, .invalidName)
  else if context.current_step = S "collecting_mobile" then
    let mobile := slotCandidate extracted_info.mobile user_message
    if validate_mobile mobile then
      let context := { context with mobile := some mobile }
      if !truthy context.complaint_details then
        ({ context with current_step := S "collecting_details" }, .mobileRecordedAskDetails mobile)
      else process_complaint_registration context llm api
    else (context, .invalidMobile)
  else if context.current_step = S "collecting_details" then
    if (trimL user_message).length < 10 then (context, .insufficientDetails)
    else
      process_complaint_registration
        { context with complaint_details := some (trimL user_message) } llm api
  else (context, .fallbackPrompt)

/-- A terminal submission outcome (success or failure), as opposed to any
slot-collection prompt. -/
def isSubmissionOutcome : Response → Bool
  | .submitted _ _ _ _ _ => true
  | .submissionFailed _ => true
  | _ => false

/-- The complaint-indicator phrases of handle_smart_registration. -/
def complaint_indicators : List Str :=
  [S "issue with", S "problem with", S "not working", S "broken", S "error",
   S "bug", S "complaint about", S "issue is", S "problem is", S "facing",
   S "having trouble"]

/-- The complaint keyword list of handle_smart_registration. -/
def complaint_words : List Str :=
  [S "laptop", S "computer", S "screen", S "keyboard", S "mouse",
   S "software", S "application", S "internet", S "network", S "wifi",
   S "slow", S "crash", S "freeze", S "hang", S "login", S "password",
   S "account", S "access", S "bill", S "charge", S "payment"]

/-- The complaint-details detection of handle_smart_registration: a
complaint indicator whose remainder strips to more than ten characters, or
a stripped message longer than twenty characters containing a complaint
keyword; the detected value is the whole stripped message. -/
def detectDetails (user_message : Str) : Option Str :=
  let message_lower := lowerL user_message
  if complaint_indicators.any (fun ind =>
      match afterFirstL ind message_lower with
      | some tail => decide (10 < (trimL tail).length)
      | none => false) then
    some (trimL user_message)
  else if 20 < (trimL user_message).length &&
          complaint_words.any (fun w => containsL message_lower w) then
    some (trimL user_message)
  else none

/-- Embeds handle_smart_registration of src/frontend/app.py: merge
extracted name and mobile into empty slots, detect complaint details from
the message, then either submit (nothing missing), present the detected
and missing information and enter the first missing slot state (from
initial), or continue step-by-step collection. -/
def handle_smart_registration (user_message : Str) (context : UserContext)
    (extracted_info : ExtractedInfo) (llm : Bool) (api : ApiResult) :
    UserContext × Response :=
  let context := if truthy extracted_info.name && !truthy context.name then
      { context with name := extracted_info.name } else context
  let context := if truthy extracted_info.mobile && !truthy context.mobile then
      { context with mobile := extracted_info.mobile } else context
  let context :=
    if !truthy context.complaint_details &&
       (context.current_step = S "initial" ||
        context.current_step = S "collecting_details") then
      match detectDetails user_message with
      | some d => { context with complaint_details := some d }
      | none => context
    else context
  let missing_info : List Str :=
    (if !truthy context.name then [S "name"] else []) ++
    (if !truthy context.mobile then [S "mobile number"] else []) ++
    (if !truthy context.complaint_details then [S "complaint details"] else [])
  if missing_info.isEmpty then
    process_complaint_registration context llm api
  else if context.current_step = S "initial" then
    let context := { context with current_step := S "collecting_info" }
    let context :=
      if missing_info.contains (S "name") then
        { context with current_step := S "collecting_name" }
      else if missing_info.contains (S "mobile number") then
        { context with current_step := S "collecting_mobile" }
      else
        { context with current_step := S "collecting_details" }
    (context, .infoSummary context.name context.mobile context.complaint_details missing_info)
  else
    handle_step_by_step_collection user_message context extracted_info llm api

/-! ### Semantic Retriever: RAGSystem of src/core/rag_system.py -/

/-- A knowledge-base entry as loaded by RAGSystem._load_knowledge_base. -/
structure KnowledgeEntry where
  id : Str
  category : Str
  scenario : Str
  response : Str
  follow_up_questions : List Str
  typical_resolution_time : Str
deriving Repr, DecidableEq

/-- The static six-entry knowledge base of RAGSystem._load_knowledge_base. -/
def knowledge_base : List KnowledgeEntry :=
  [⟨S "kb_001", S "Hardware",
    S "laptop not working, computer issues, hardware problems",
    S "I understand you\x27re experiencing hardware issues. This is quite common and we\x27ll help resolve it quickly.",
    [S "What specific hardware component is causing issues?", S "When did the problem start?"],
    S "2-3 business days"⟩,
   ⟨S "kb_002", S "Software",
    S "software not working, application crashes, program errors",
    S "Software issues can be frustrating. Let me help you get this resolved.",
    [S "Which software/application is having issues?", S "What error message do you see?"],
    S "1-2 business days"⟩,
   ⟨S "kb_003", S "Network",
    S "internet slow, network problems, connectivity issues, wifi not working",
    S "Network connectivity issues can impact your productivity. We\x27ll prioritize getting this fixed.",
    [S "Is this affecting all devices or just one?", S "When did you first notice the issue?"],
    S "4-6 hours"⟩,
   ⟨S "kb_004", S "Account",
    S "login problems, password issues, account access, authentication",
    S "Account access issues need immediate attention for security reasons.",
    [S "What happens when you try to login?", S "Have you recently changed your password?"],
    S "2-4 hours"⟩,
   ⟨S "kb_005", S "Billing",
    S "billing issues, payment problems, invoice questions, charges",
    S "I\x27ll help you resolve this billing concern. Let me look into the details.",
    [S "Which specific charge are you questioning?", S "Do you have the invoice number?"],
    S "3-5 business days"⟩,
   ⟨S "kb_006", S "Service",
    S "poor service, support issues, customer service problems",
    S "I apologize for any service issues you\x27ve experienced. We take this seriously.",
    [S "Can you describe the specific service issue?", S "When did this occur?"],
    S "1-2 business days"⟩]

/-- Python slicing a[-k:] on a list: the last k elements for positive k,
but the whole list when k is zero. -/
def pyLastSlice (k : Nat) (l : List Nat) : List Nat :=
  if k = 0 then l else l.drop (l.length - k)

/-- The per-index body of the find_relevant_context loop: keep index i
when its similarity exceeds 0.3, pairing the knowledge-base entry with its
score. -/
def frcKeep (similarities : List ℚ) (i : Nat) : Option (KnowledgeEntry × ℚ) :=
  if mkRat 3 10 < similarities.getD i 0 then
    (knowledge_base.get? i).map (fun e => (e, similarities.getD i 0))
  else none

/-- Embeds RAGSystem.find_relevant_context of src/core/rag_system.py.  The
embedding model is the external collaborator producing the cosine
similarities of the query against the knowledge-base scenarios, so the
similarity vector is taken as the argument; np.argsort is modelled as a
sort of the index range ascending by similarity (any argsort satisfies the
ordering facts proved below).  The top_k indices are the reversed tail
slice of the argsort, and entries are kept while their similarity exceeds
0.3. -/
def find_relevant_context (similarities : List ℚ) (top_k : Nat) :
    List (KnowledgeEntry × ℚ) :=
  let idx := List.insertionSort
    (fun i j => similarities.getD i 0 ≤ similarities.getD j 0)
    (List.range similarities.length)
  let top_indices := (pyLastSlice top_k idx).reverse
  top_indices.filterMap (frcKeep similarities)

/-! ### Conversation Memory: dominant sentiment -/

/-- First-occurrence deduplication with a seen accumulator. -/
def pySetGo : List Str → List Str → List Str
  | [], _ => []
  | x :: xs, seen =>
      if seen.contains x then pySetGo xs seen else x :: pySetGo xs (x :: seen)

/-- Python set(xs) of the sentiment history, modelled as first-occurrence
deduplication: within one process the CPython iteration order of a set
built from the same history is a fixed deterministic order, and every
order yields the theorems below. -/
def pySetList (l : List Str) : List Str := pySetGo l []

/-- Python max(iterable, key): the first element, in iteration order,
whose key no later element strictly exceeds. -/
def pyMaxBy (key : Str → Nat) : Str → List Str → Str
  | best, [] => best
  | best, x :: xs =>
      if key best < key x then pyMaxBy key x xs else pyMaxBy key best xs

/-- Embeds the dominant_sentiment field of
ConversationMemory.get_contextual_insights of src/frontend/app.py:
max(set(history), key=history.count) when the history is non-empty, else
neutral. -/
def dominant_sentiment (sentiment_history : List Str) : Str :=
  match pySetList sentiment_history with
  | [] => S "neutral"
  | d :: ds => pyMaxBy (fun s => sentiment_history.count s) d ds

/-! ### Persistence: DatabaseManager.update_complaint_status -/

/-- A row of the complaints table; the two timestamp columns play no part
in the claims and are omitted. -/
structure ComplaintRow where
  complaint_id : Str
  name : Str
  mobile : Str
  complaint_details : Str
  category : Str
  status : Str
deriving Repr, DecidableEq

/-- A row of the status_history table; the changed_at timestamp is
omitted. -/
structure StatusHistoryRow where
  complaint_id : Str
  old_status : Option Str
  new_status : Str
  notes : Option Str
deriving Repr, DecidableEq

/-- The two tables touched by update_complaint_status. -/
structure DBState where
  complaints : List ComplaintRow
  status_history : List StatusHistoryRow
deriving Repr, DecidableEq

/-- Embeds DatabaseManager.update_complaint_status of
src/database/database.py: select the complaint by id (first matching row),
return False leaving the state unchanged when absent; otherwise update the
status of the matching rows, append one history row recording the prior
status, and return True. -/
def update_complaint_status (db : DBState) (complaint_id : Str)
    (new_status : Str) (notes : Option Str) : Bool × DBState :=
  match db.complaints.find? (fun c => c.complaint_id = complaint_id) with
  | none => (false, db)
  | some row =>
      (true,
       { complaints := db.complaints.map (fun c =>
           if c.complaint_id = complaint_id then { c with status := new_status } else c),
         status_history := db.status_history ++
           [⟨complaint_id, some row.status, new_status, notes⟩] })

/-! ## Claim theorems -/

/-- C2: after every submission attempt, success (submitted) or failure
(submission_failed), process_complaint_registration replaces the session
ConversationContext by a fresh context whose current_step is initial and
whose name, mobile and complaint_details are all unset, so a repeated user
message cannot double-submit from the same context instance. -/
theorem C2_terminal_reset (context : UserContext) (llm : Bool) (api : ApiResult) :
    (process_complaint_registration context llm api).1 = UserContext.fresh ∧
    UserContext.fresh.current_step = S "initial" ∧
    UserContext.fresh.name = none ∧
    UserContext.fresh.mobile = none ∧
    UserContext.fresh.complaint_details = none := by
  cases api <;> simp [process_complaint_registration, UserContext.fresh]

/-- C5: in every slot-collection state, when the slot validator rejects
the candidate input, handle_step_by_step_collection leaves the context
(current_step and all previously set slots) unchanged and returns the
validation-error re-prompt for that slot, never a submission failure. -/
theorem C5_validation_error_locality (user_message : Str) (context : UserContext)
    (extracted_info : ExtractedInfo) (llm : Bool) (api : ApiResult) :
    (context.current_step = S "collecting_name" →
      validate_name (slotCandidate extracted_info.name user_message) = false →
      handle_step_by_step_collection user_message context extracted_info llm api =
        (context, Response.invalidName)) ∧
    (context.current_step = S "collecting_mobile" →
      validate_mobile (slotCandidate extracted_info.mobile user_message) = false →
      handle_step_by_step_collection user_message context extracted_info llm api =
        (context, Response.invalidMobile)) ∧
    (context.current_step = S "collecting_details" →
      (trimL user_message).length < 10 →
      handle_step_by_step_collection user_message context extracted_info llm api =
        (context, Response.insufficientDetails)) := by
  refine ⟨?_, ?_, ?_⟩ <;> intro hstep hval <;>
    simp [handle_step_by_step_collection, hstep, hval, S]

/-- Witness for C5: in state collecting_name with a previously recorded
mobile slot, the message help is rejected by the name validator and the
context, its step and its mobile slot are unchanged. -/
theorem C5_validation_error_locality_witness :
    validate_name (slotCandidate (extract_information (S "help")).name (S "help")) = false ∧
    handle_step_by_step_collection (S "help")
      { name := none, mobile := some (S "9876543210"),
        complaint_details := none, current_step := S "collecting_name" }
      (extract_information (S "help")) true (ApiResult.ok (S "CMP12345678")) =
      ({ name := none, mobile := some (S "9876543210"),
         complaint_details := none, current_step := S "collecting_name" },
       Response.invalidName) := by
  refine ⟨by decide, ?_⟩
  exact (C5_validation_error_locality (S "help")
    { name := none, mobile := some (S "9876543210"),
      complaint_details := none, current_step := S "collecting_name" }
    (extract_information (S "help")) true (ApiResult.ok (S "CMP12345678"))).1
    rfl (by decide)

/-- C7: for every message whose stripped, lowered form is one of the ten
denylisted phrases, tier (a) of the name extraction yields nothing, so
extract_information cannot populate the name field through the
whole-message heuristic; the name is whatever the pattern tier alone
produces. -/
theorem C7_denylist_tier_a (msg : Str)
    (h : nonNamePhrases.contains (lowerL (trimL msg)) = true) :
    tierAName msg = none ∧
    extractNameEI msg =
      [namePat1, namePat2, namePat3, namePat4].findSome?
        (fun p => (searchFirst p msg).bind validNameEI) := by
  have h1 : tierAName msg = none := by
    simp only [tierAName, h]
    simp
  refine ⟨h1, ?_⟩
  unfold extractNameEI
  rw [h1]
  cases ([namePat1, namePat2, namePat3, namePat4].findSome?
      (fun p => (searchFirst p msg).bind validNameEI)) <;> rfl

/-- Witness for C7: the message Help (with surrounding spaces) is
denylisted after stripping and lowering, and tier (a) yields nothing. -/
theorem C7_denylist_tier_a_witness :
    nonNamePhrases.contains (lowerL (trimL (S " Help "))) = true ∧
    tierAName (S " Help ") = none := by
  refine ⟨by decide, ?_⟩
  exact (C7_denylist_tier_a (S " Help ") (by decide)).1

/-- C10: categorize_complaint is total into the fixed seven-member
category set, and the keyword groups are evaluated in the fixed order
hardware, software, network, account, billing, service, with Other for
text matching no group; text matching several groups receives the
earliest matching category. -/
theorem C10_categorize_total_order (s : Str) :
    (categorize_complaint s = ComplaintCategory.Hardware ∨
     categorize_complaint s = ComplaintCategory.Software ∨
     categorize_complaint s = ComplaintCategory.Network ∨
     categorize_complaint s = ComplaintCategory.Account ∨
     categorize_complaint s = ComplaintCategory.Billing ∨
     categorize_complaint s = ComplaintCategory.Service ∨
     categorize_complaint s = ComplaintCategory.Other) ∧
    (kwAny (lowerL s) hardware_words = true →
      categorize_complaint s = ComplaintCategory.Hardware) ∧
    (kwAny (lowerL s) hardware_words = false →
     kwAny (lowerL s) software_words = true →
      categorize_complaint s = ComplaintCategory.Software) ∧
    (kwAny (lowerL s) hardware_words = false →
     kwAny (lowerL s) software_words = false →
     kwAny (lowerL s) network_words = true →
      categorize_complaint s = ComplaintCategory.Network) ∧
    (kwAny (lowerL s) hardware_words = false →
     kwAny (lowerL s) software_words = false →
     kwAny (lowerL s) network_words = false →
     kwAny (lowerL s) account_words = true →
      categorize_complaint s = ComplaintCategory.Account) ∧
    (kwAny (lowerL s) hardware_words = false →
     kwAny (lowerL s) software_words = false →
     kwAny (lowerL s) network_words = false →
     kwAny (lowerL s) account_words = false →
     kwAny (lowerL s) billing_words = true →
      categorize_complaint s = ComplaintCategory.Billing) ∧
    (kwAny (lowerL s) hardware_words = false →
     kwAny (lowerL s) software_words = false →
     kwAny (lowerL s) network_words = false →
     kwAny (lowerL s) account_words = false →
     kwAny (lowerL s) billing_words = false →
     kwAny (lowerL s) service_words = true →
      categorize_complaint s = ComplaintCategory.Service) ∧
    (kwAny (lowerL s) hardware_words = false →
     kwAny (lowerL s) software_words = false →
     kwAny (lowerL s) network_words = false →
     kwAny (lowerL s) account_words = false →
     kwAny (lowerL s) billing_words = false →
     kwAny (lowerL s) service_words = false →
      categorize_complaint s = ComplaintCategory.Other) := by
  refine ⟨?_, ?_, ?_, ?_, ?_, ?_, ?_, ?_⟩
  · generalize categorize_complaint s = c
    cases c <;> simp
  all_goals (intros; simp [categorize_complaint, *])

/-- Witness for C10: a details text naming both the laptop and a billing
charge is categorized Hardware, the earlier group in the fixed order. -/
theorem C10_categorize_total_order_witness :
    categorize_complaint (S "my laptop shows a wrong charge") =
      ComplaintCategory.Hardware := by
  exact (C10_categorize_total_order (S "my laptop shows a wrong charge")).2.1 (by decide)

/-- Python max keeps the first element, in iteration order, whose key no
later element strictly exceeds; hence its key dominates the start element
and every listed element. -/
theorem pyMaxBy_max (key : Str → Nat) :
    ∀ (l : List Str) (best : Str),
      key best ≤ key (pyMaxBy key best l) ∧
      ∀ x ∈ l, key x ≤ key (pyMaxBy key best l)
  | [], best => ⟨Nat.le_refl _, by simp⟩
  | x :: xs, best => by
      have ihx := pyMaxBy_max key xs x
      have ihb := pyMaxBy_max key xs best
      by_cases hx : key best < key x
      · rw [show pyMaxBy key best (x :: xs) = pyMaxBy key x xs from by
          simp [pyMaxBy, hx]]
        refine ⟨Nat.le_trans (Nat.le_of_lt hx) ihx.1, ?_⟩
        intro y hy
        rcases List.mem_cons.mp hy with rfl | hy2
        · exact ihx.1
        · exact ihx.2 y hy2
      · rw [show pyMaxBy key best (x :: xs) = pyMaxBy key best xs from by
          simp [pyMaxBy, hx]]
        refine ⟨ihb.1, ?_⟩
        intro y hy
        rcases List.mem_cons.mp hy with rfl | hy2
        · exact Nat.le_trans (Nat.le_of_not_lt hx) ihb.1
        · exact ihb.2 y hy2

/-- Every listed element not already seen appears in the deduplication. -/
theorem mem_pySetGo :
    ∀ (l seen : List Str) (x : Str),
      x ∈ l → x ∉ seen → x ∈ pySetGo l seen := by
  intro l
  induction l with
  | nil => intro seen x hx; cases hx
  | cons y ys ih =>
      intro seen x hx hseen
      rcases List.mem_cons.mp hx with rfl | h2
      · simp [pySetGo, hseen]
      · by_cases hc : y ∈ seen
        · have := ih seen x h2 hseen
          simp [pySetGo, hc, this]
        · rcases eq_or_ne x y with rfl | hxy
          · simp [pySetGo, hc]
          · have hs2 : x ∉ (y :: seen) := by simp [hxy, hseen]
            have hrec := ih (y :: seen) x h2 hs2
            simp [pySetGo, hc, hrec]

/-- C8: the dominant-sentiment computation of get_contextual_insights is a
deterministic function of the sentiment history, so identical histories
always yield the identical dominant value, ties included; on a non-empty
history the value attains the maximal occurrence count. -/
theorem C8_dominant_sentiment_stable (h1 h2 : List Str) (heq : h1 = h2) :
    dominant_sentiment h1 = dominant_sentiment h2 ∧
    (h1 ≠ [] → ∀ x ∈ h1, h1.count x ≤ h1.count (dominant_sentiment h1)) := by
  subst heq
  refine ⟨rfl, ?_⟩
  intro _hne x hx
  have hmem : x ∈ pySetList h1 :=
    mem_pySetGo h1 [] x hx (by simp)
  unfold dominant_sentiment
  cases hset : pySetList h1 with
  | nil => rw [hset] at hmem; cases hmem
  | cons d ds =>
      rw [hset] at hmem
      rcases List.mem_cons.mp hmem with rfl | hmem2
      · exact (pyMaxBy_max (fun s => h1.count s) ds x).1
      · exact (pyMaxBy_max (fun s => h1.count s) ds d).2 x hmem2

/-- Witness for C8: on the tied history positive, negative, repeated
evaluation agrees and the dominant value has a maximal count. -/
theorem C8_dominant_sentiment_stable_witness :
    dominant_sentiment [S "positive", S "negative"] =
      dominant_sentiment [S "positive", S "negative"] ∧
    [S "positive", S "negative"].count (S "negative") ≤
      [S "positive", S "negative"].count
        (dominant_sentiment [S "positive", S "negative"]) := by
  have h := C8_dominant_sentiment_stable [S "positive", S "negative"]
    [S "positive", S "negative"] rfl
  exact ⟨h.1, h.2 (by decide) (S "negative") (by decide)⟩

/-- Updating the status of the matching rows moves the first match along:
the found row reappears, updated, as the first match of the updated
table. -/
theorem find_map_update (cid new : Str) :
    ∀ (l : List ComplaintRow) (row : ComplaintRow),
      l.find? (fun c => c.complaint_id = cid) = some row →
      (l.map (fun c =>
        if c.complaint_id = cid then { c with status := new } else c)).find?
          (fun c => c.complaint_id = cid) = some { row with status := new } := by
  intro l
  induction l with
  | nil => intro row h; simp at h
  | cons a t ih =>
      intro row h
      by_cases ha : a.complaint_id = cid
      · rw [List.find?_cons_of_pos _ (by simp [ha])] at h
        injection h with h
        subst h
        simp only [List.map_cons, if_pos ha]
        exact List.find?_cons_of_pos _ (by simp [ha])
      · rw [List.find?_cons_of_neg _ (by simp [ha])] at h
        simp only [List.map_cons, if_neg ha]
        rw [List.find?_cons_of_neg _ (by simp [ha])]
        exact ih row h

/-- C9: update_complaint_status returns False and leaves the complaints
table and the status history unchanged when no complaint has the given
id; when one does, it returns True, the stored complaint carries the new
status, and exactly one history record is appended whose old_status is the
prior status and whose new_status is the new one. -/
theorem C9_update_status_atomic (db : DBState) (cid new_status : Str)
    (notes : Option Str) :
    (db.complaints.find? (fun c => c.complaint_id = cid) = none →
      update_complaint_status db cid new_status notes = (false, db)) ∧
    (∀ row, db.complaints.find? (fun c => c.complaint_id = cid) = some row →
      (update_complaint_status db cid new_status notes).1 = true ∧
      (update_complaint_status db cid new_status notes).2.complaints.find?
          (fun c => c.complaint_id = cid) = some { row with status := new_status } ∧
      (update_complaint_status db cid new_status notes).2.status_history =
        db.status_history ++ [⟨cid, some row.status, new_status, notes⟩]) := by
  constructor
  · intro h
    simp [update_complaint_status, h]
  · intro row h
    have h2 := find_map_update cid new_status db.complaints row h
    refine ⟨?_, ?_, ?_⟩
    · simp [update_complaint_status, h]
    · simp only [update_complaint_status, h]
      exact h2
    · simp [update_complaint_status, h]

/-- Witness for C9: on a one-row store, updating a missing id returns
False unchanged, and updating the present id returns True with the new
status and the single appended history record. -/
theorem C9_update_status_atomic_witness :
    update_complaint_status
      ⟨[⟨S "CMP1", S "A", S "123", S "d", S "Other", S "Registered"⟩], []⟩
      (S "CMP2") (S "Resolved") none =
      (false, ⟨[⟨S "CMP1", S "A", S "123", S "d", S "Other", S "Registered"⟩], []⟩) ∧
    (update_complaint_status
      ⟨[⟨S "CMP1", S "A", S "123", S "d", S "Other", S "Registered"⟩], []⟩
      (S "CMP1") (S "Resolved") none).2.status_history =
      [⟨S "CMP1", some (S "Registered"), S "Resolved", none⟩] := by
  constructor
  · exact (C9_update_status_atomic
      ⟨[⟨S "CMP1", S "A", S "123", S "d", S "Other", S "Registered"⟩], []⟩
      (S "CMP2") (S "Resolved") none).1 (by decide)
  · exact ((C9_update_status_atomic
      ⟨[⟨S "CMP1", S "A", S "123", S "d", S "Other", S "Registered"⟩], []⟩
      (S "CMP1") (S "Resolved") none).2
      ⟨S "CMP1", S "A", S "123", S "d", S "Other", S "Registered"⟩ (by decide)).2.2

/-- C4: smart_intent_detection evaluates its rules first-match-wins, top
to bottom: a mid-registration step yields continue_registration at 0.9;
otherwise an extracted complaint identifier yields check_status_by_id at
0.95; otherwise an extracted mobile together with a status keyword yields
check_status_by_mobile at 0.9; otherwise a registration keyword yields
register_complaint at 0.85; otherwise a status keyword yields
check_status at 0.8. -/
theorem C4_intent_decision_order (message : Str) (context : UserContext) :
    (context.current_step ≠ S "initial" →
      smart_intent_detection message context =
        ⟨S "continue_registration", extract_user_details message, mkRat 9 10⟩) ∧
    (context.current_step = S "initial" →
     truthy (extract_user_details message).complaint_id = true →
      smart_intent_detection message context =
        ⟨S "check_status_by_id", extract_user_details message, mkRat 95 100⟩) ∧
    (context.current_step = S "initial" →
     truthy (extract_user_details message).complaint_id = false →
     truthy (extract_user_details message).mobile = true →
     kwAny (lowerL message) [S "status", S "check", S "my complaints"] = true →
      smart_intent_detection message context =
        ⟨S "check_status_by_mobile", extract_user_details message, mkRat 9 10⟩) ∧
    (context.current_step = S "initial" →
     truthy (extract_user_details message).complaint_id = false →
     (truthy (extract_user_details message).mobile &&
      kwAny (lowerL message) [S "status", S "check", S "my complaints"]) = false →
     kwAny (lowerL message) registration_keywords = true →
      smart_intent_detection message context =
        ⟨S "register_complaint", extract_user_details message, mkRat 85 100⟩) ∧
    (context.current_step = S "initial" →
     truthy (extract_user_details message).complaint_id = false →
     (truthy (extract_user_details message).mobile &&
      kwAny (lowerL message) [S "status", S "check", S "my complaints"]) = false →
     kwAny (lowerL message) registration_keywords = false →
     kwAny (lowerL message) status_keywords = true →
      smart_intent_detection message context =
        ⟨S "check_status", extract_user_details message, mkRat 8 10⟩) := by
  refine ⟨?_, ?_, ?_, ?_, ?_⟩ <;>
    (intros; simp [smart_intent_detection, *])

/-- Witness for C4: any mid-registration step classifies as
continue_registration at confidence 0.9. -/
theorem C4_intent_decision_order_witness :
    smart_intent_detection (S "John Smith")
      { name := none, mobile := none, complaint_details := none,
        current_step := S "collecting_name" } =
      ⟨S "continue_registration", extract_user_details (S "John Smith"), mkRat 9 10⟩ := by
  exact (C4_intent_decision_order (S "John Smith")
    { name := none, mobile := none, complaint_details := none,
      current_step := S "collecting_name" }).1 (by decide)

/-- A kept pair carries exactly the similarity of its index, above the
threshold. -/
theorem frcKeep_spec (similarities : List ℚ) (i : Nat) (p : KnowledgeEntry × ℚ)
    (hp : frcKeep similarities i = some p) :
    p.2 = similarities.getD i 0 ∧ mkRat 3 10 < p.2 := by
  by_cases hc : mkRat 3 10 < similarities.getD i 0
  · rw [frcKeep, if_pos hc] at hp
    rcases Option.map_eq_some'.mp hp with ⟨e, _, rfl⟩
    exact ⟨rfl, hc⟩
  · rw [frcKeep, if_neg hc] at hp
    cases hp

/-- Filtering a similarity-descending index list yields a
similarity-descending entry list. -/
theorem frcKeep_pairwise (similarities : List ℚ) (l : List Nat)
    (hl : List.Pairwise (fun i j => similarities.getD j 0 ≤ similarities.getD i 0) l) :
    List.Pairwise (fun a b : KnowledgeEntry × ℚ => b.2 ≤ a.2)
      (l.filterMap (frcKeep similarities)) := by
  refine List.Pairwise.filterMap _ ?_ hl
  intro a b hab x hx y hy
  have hxs := frcKeep_spec similarities a x hx
  have hys := frcKeep_spec similarities b y hy
  rw [hxs.1, hys.1]
  exact hab

/-- C6 amended: for every similarity vector and every top_k at least one,
find_relevant_context returns at most top_k entries, ordered by
non-increasing similarity, none of them at similarity 0.3 or below.  (The
original claim quantified over every top_k; at top_k = 0 the Python slice
[-top_k:] degenerates to the whole list, refuted separately.) -/
theorem C6_retrieval_ordering_amended (similarities : List ℚ) (top_k : Nat)
    (hk : 1 ≤ top_k) :
    (find_relevant_context similarities top_k).length ≤ top_k ∧
    List.Pairwise (fun a b : KnowledgeEntry × ℚ => b.2 ≤ a.2)
      (find_relevant_context similarities top_k) ∧
    ∀ p ∈ find_relevant_context similarities top_k, mkRat 3 10 < p.2 := by
  have hk0 : ¬ top_k = 0 := by omega
  have hunfold : find_relevant_context similarities top_k =
      (((List.insertionSort
          (fun i j => similarities.getD i 0 ≤ similarities.getD j 0)
          (List.range similarities.length)).drop
            ((List.insertionSort
              (fun i j => similarities.getD i 0 ≤ similarities.getD j 0)
              (List.range similarities.length)).length - top_k)).reverse).filterMap
        (frcKeep similarities) := by
    simp only [find_relevant_context, pyLastSlice, hk0, if_false]
  haveI htot : IsTotal Nat
      (fun i j => similarities.getD i 0 ≤ similarities.getD j 0) :=
    ⟨fun a b => le_total _ _⟩
  haveI htr : IsTrans Nat
      (fun i j => similarities.getD i 0 ≤ similarities.getD j 0) :=
    ⟨fun a b c hab hbc => le_trans hab hbc⟩
  have hsort : List.Sorted
      (fun i j => similarities.getD i 0 ≤ similarities.getD j 0)
      (List.insertionSort
        (fun i j => similarities.getD i 0 ≤ similarities.getD j 0)
        (List.range similarities.length)) :=
    List.sorted_insertionSort _ _
  rw [hunfold]
  revert hsort
  generalize List.insertionSort
      (fun i j => similarities.getD i 0 ≤ similarities.getD j 0)
      (List.range similarities.length) = L
  intro hsort
  refine ⟨?_, ?_, ?_⟩
  · calc ((L.drop (L.length - top_k)).reverse.filterMap (frcKeep similarities)).length
        ≤ (L.drop (L.length - top_k)).reverse.length :=
          List.length_filterMap_le _ _
      _ = (L.drop (L.length - top_k)).length := List.length_reverse _
      _ ≤ top_k := by
          rw [List.length_drop]
          omega
  · refine frcKeep_pairwise similarities _ ?_
    exact List.pairwise_reverse.mpr
      (List.Pairwise.sublist (List.drop_sublist _ _) hsort)
  · intro p hp
    rcases List.mem_filterMap.mp hp with ⟨i, _, hkeep⟩
    exact (frcKeep_spec similarities i p hkeep).2

/-- Witness for the amended C6 at the concrete similarity vector of six
scores and top_k one: a single entry, above threshold. -/
theorem C6_retrieval_ordering_amended_witness :
    (find_relevant_context [mkRat 1 2, mkRat 1 5, mkRat 2 5, mkRat 1 10, 0, mkRat 7 20] 1).length ≤ 1 ∧
    List.Pairwise (fun a b : KnowledgeEntry × ℚ => b.2 ≤ a.2)
      (find_relevant_context [mkRat 1 2, mkRat 1 5, mkRat 2 5, mkRat 1 10, 0, mkRat 7 20] 1) ∧
    ∀ p ∈ find_relevant_context [mkRat 1 2, mkRat 1 5, mkRat 2 5, mkRat 1 10, 0, mkRat 7 20] 1, mkRat 3 10 < p.2 := by
  exact C6_retrieval_ordering_amended [mkRat 1 2, mkRat 1 5, mkRat 2 5, mkRat 1 10, 0, mkRat 7 20] 1 (by omega)

/-- C6 counterexample: the claim quantifies over every top_k, but at
top_k = 0 the slice [-top_k:] keeps every index, so with three
above-threshold similarities the result has three entries, not at most
zero. -/
theorem C6_retrieval_ordering_counterexample :
    (find_relevant_context [mkRat 1 2, mkRat 1 5, mkRat 2 5, mkRat 1 10, 0, mkRat 7 20] 0).length = 3 ∧
    ¬ ((find_relevant_context [mkRat 1 2, mkRat 1 5, mkRat 2 5, mkRat 1 10, 0, mkRat 7 20] 0).length ≤ 0) := by
  constructor
  · rfl
  · intro h
    rw [show (find_relevant_context [mkRat 1 2, mkRat 1 5, mkRat 2 5, mkRat 1 10, 0, mkRat 7 20] 0).length = 3
      from rfl] at h
    omega

/-- Truthiness of an absent value. -/
theorem truthy_none : truthy none = false := rfl

/-- Truthiness of a present value. -/
theorem truthy_some (s : Str) : truthy (some s) = !s.isEmpty := rfl

/-- Both submission outcomes of process_complaint_registration hand back a
fresh session context. -/
theorem process_reset (context : UserContext) (llm : Bool) (api : ApiResult) :
    (process_complaint_registration context llm api).1 = UserContext.fresh := by
  cases api <;> rfl

/-- process_complaint_registration always replies with a terminal
submission outcome, never a slot prompt. -/
theorem process_outcome (context : UserContext) (llm : Bool) (api : ApiResult) :
    isSubmissionOutcome (process_complaint_registration context llm api).2 = true := by
  cases api <;> rfl

/-- Whenever the detail detection fires, the detected value is the whole
stripped message. -/
theorem detectDetails_some (user_message : Str) (d : Str)
    (h : detectDetails user_message = some d) : d = trimL user_message := by
  simp only [detectDetails] at h
  split_ifs at h <;> simp_all

/-- C1 counterexample: the message below contains the valid name John
Smith, the valid phone 9876543210 and a complaint description of more
than ten characters, all recognized by the extractor, yet
handle_smart_registration from a fresh context does not reach processing:
it answers with a slot-collection prompt and moves to collecting_details,
because the description matches no complaint indicator or keyword. -/
theorem C1_skip_ahead_counterexample :
    validate_name (S "John Smith") = true ∧
    (extract_information
      (S "i am John Smith, phone 9876543210, my printer refuses to output documents")).name =
      some (S "John Smith") ∧
    validate_mobile (S "9876543210") = true ∧
    (extract_information
      (S "i am John Smith, phone 9876543210, my printer refuses to output documents")).mobile =
      some (S "9876543210") ∧
    containsL
      (S "i am John Smith, phone 9876543210, my printer refuses to output documents")
      (S "my printer refuses to output documents") = true ∧
    10 ≤ (S "my printer refuses to output documents").length ∧
    handle_smart_registration
      (S "i am John Smith, phone 9876543210, my printer refuses to output documents")
      {} (extract_information
        (S "i am John Smith, phone 9876543210, my printer refuses to output documents"))
      true (ApiResult.ok (S "CMP12345678")) =
      ({ name := some (S "John Smith"), mobile := some (S "9876543210"),
         complaint_details := none, current_step := S "collecting_details" },
       Response.infoSummary (some (S "John Smith")) (some (S "9876543210")) none
         [S "complaint details"]) := by
  decide

/-- C1 amended: from a fresh initial context, when the extractor supplies
a name and a mobile and the message triggers the detail-detection
heuristic (a complaint indicator followed by more than ten characters, or
a message over twenty characters containing a complaint keyword),
handle_smart_registration goes straight to
process_complaint_registration with all three slots filled and returns a
terminal submission outcome over a reset context, with no slot-collection
prompt. -/
theorem C1_skip_ahead_amended (user_message : Str) (context : UserContext)
    (extracted_info : ExtractedInfo) (llm : Bool) (api : ApiResult)
    (hstep : context.current_step = S "initial")
    (hn : context.name = none) (hm : context.mobile = none)
    (hd : context.complaint_details = none)
    (hen : truthy extracted_info.name = true)
    (hem : truthy extracted_info.mobile = true)
    (hdet : (detectDetails user_message).isSome = true)
    (hnb : (trimL user_message).isEmpty = false) :
    handle_smart_registration user_message context extracted_info llm api =
      process_complaint_registration
        { context with
          name := extracted_info.name
          mobile := extracted_info.mobile
          complaint_details := some (trimL user_message) } llm api ∧
    (handle_smart_registration user_message context extracted_info llm api).1 =
      UserContext.fresh ∧
    isSubmissionOutcome
      (handle_smart_registration user_message context extracted_info llm api).2 =
      true := by
  obtain ⟨d, hdd⟩ := Option.isSome_iff_exists.mp hdet
  obtain rfl := detectDetails_some user_message d hdd
  have main : handle_smart_registration user_message context extracted_info llm api =
      process_complaint_registration
        { context with
          name := extracted_info.name
          mobile := extracted_info.mobile
          complaint_details := some (trimL user_message) } llm api := by
    simp only [handle_smart_registration, hstep, hn, hm, hd, hen, hem, hdd,
      truthy_none, truthy_some, hnb, Bool.not_false, Bool.and_true,
      Bool.true_and, if_true, List.append_nil, List.nil_append, List.isEmpty_nil]
    simp [hen, hem, truthy_some, hnb]
  refine ⟨main, ?_, ?_⟩
  · rw [main]; exact process_reset _ _ _
  · rw [main]; exact process_outcome _ _ _

/-- Witness for the amended C1: a single message carrying name, phone and
an indicator-matched description is submitted at once: the reply is the
submitted outcome built from the three extracted slots and the Hardware
category, over a fresh context. -/
theorem C1_skip_ahead_amended_witness :
    handle_smart_registration
      (S "i am John Smith, phone 9876543210, the issue with my laptop is that it does not boot")
      {} (extract_information
        (S "i am John Smith, phone 9876543210, the issue with my laptop is that it does not boot"))
      true (ApiResult.ok (S "CMPAB12CD34")) =
      process_complaint_registration
        { name := (extract_information
            (S "i am John Smith, phone 9876543210, the issue with my laptop is that it does not boot")).name,
          mobile := (extract_information
            (S "i am John Smith, phone 9876543210, the issue with my laptop is that it does not boot")).mobile,
          complaint_details := some (trimL
            (S "i am John Smith, phone 9876543210, the issue with my laptop is that it does not boot")),
          current_step := S "initial" } true (ApiResult.ok (S "CMPAB12CD34")) ∧
    (handle_smart_registration
      (S "i am John Smith, phone 9876543210, the issue with my laptop is that it does not boot")
      {} (extract_information
        (S "i am John Smith, phone 9876543210, the issue with my laptop is that it does not boot"))
      true (ApiResult.ok (S "CMPAB12CD34"))).1 = UserContext.fresh ∧
    isSubmissionOutcome
      (handle_smart_registration
        (S "i am John Smith, phone 9876543210, the issue with my laptop is that it does not boot")
        {} (extract_information
          (S "i am John Smith, phone 9876543210, the issue with my laptop is that it does not boot"))
        true (ApiResult.ok (S "CMPAB12CD34"))).2 = true := by
  exact C1_skip_ahead_amended
    (S "i am John Smith, phone 9876543210, the issue with my laptop is that it does not boot")
    {} (extract_information
      (S "i am John Smith, phone 9876543210, the issue with my laptop is that it does not boot"))
    true (ApiResult.ok (S "CMPAB12CD34"))
    rfl rfl rfl rfl (by decide) (by decide) (by decide) (by decide)

/-- A digit is not whitespace. -/
theorem digit_not_space {c : Char} (h : isDigitC c = true) : isSpaceC c = false := by
  simp only [isDigitC, Bool.and_eq_true, decide_eq_true_eq] at h
  simp only [isSpaceC, Bool.or_eq_false_iff, decide_eq_false_iff_not]
  omega

/-- A digit is not a separator. -/
theorem digit_not_sep {c : Char} (h : isDigitC c = true) : isSepC c = false := by
  simp only [isDigitC, Bool.and_eq_true, decide_eq_true_eq] at h
  simp only [isSepC, isSpaceC, Bool.or_eq_false_iff, decide_eq_false_iff_not]
  omega

/-- A digit is not removed by the mobile clean-up. -/
theorem digit_not_junk {c : Char} (h : isDigitC c = true) : isMobileJunk c = false := by
  simp only [isDigitC, Bool.and_eq_true, decide_eq_true_eq] at h
  simp only [isMobileJunk, isSepC, isSpaceC, Bool.or_eq_false_iff,
    decide_eq_false_iff_not]
  omega

/-- A digit is not the plus sign. -/
theorem digit_ne_plus {c : Char} (h : isDigitC c = true) : c ≠ '+' := by
  intro e
  subst e
  simp [isDigitC] at h

/-- On an all-true list the leading run is the whole list. -/
theorem countWhile_all {p : Char → Bool} {l : Str} (h : ∀ c ∈ l, p c = true) :
    countWhile p l = l.length := by
  rw [countWhile, List.takeWhile_eq_self_iff.mpr h]

/-- Stripping leaves a whitespace-free list unchanged. -/
theorem trimL_no_space {l : Str} (h : ∀ c ∈ l, isSpaceC c = false) :
    trimL l = l := by
  have h1 : l.dropWhile isSpaceC = l := by
    cases l with
    | nil => rfl
    | cons c t => simp [List.dropWhile_cons, h c (List.mem_cons_self c t)]
  have h2 : l.reverse.dropWhile isSpaceC = l.reverse := by
    cases hr : l.reverse with
    | nil => rfl
    | cons c t =>
        have hc : c ∈ l := by
          have : c ∈ l.reverse := by rw [hr]; exact List.mem_cons_self c t
          simpa using this
        simp [List.dropWhile_cons, h c hc]
  rw [trimL, h1, h2, List.reverse_reverse]

/-- Cleaning leaves an all-digit list unchanged. -/
theorem cleanMobile_digits {l : Str} (h : ∀ c ∈ l, isDigitC c = true) :
    cleanMobile l = l := by
  rw [cleanMobile, List.filter_eq_self]
  intro c hc
  simp [digit_not_junk (h c hc)]

/-- Evaluating the exact-digit piece on an all-digit input with enough
length. -/
theorem digitsExactThen_eval (k : Nat) (cont : Cont) {l : Str}
    (h : ∀ c ∈ l, isDigitC c = true) (hk : k ≤ l.length) :
    digitsExactThen k cont l = (cont (l.drop k)).map (fun r => (k + r.1, r.2)) := by
  rw [digitsExactThen]
  simp [countWhile_all h, hk]

/-- The optional-class piece skips over an input whose head is not in the
class. -/
theorem optClsThen_skip {p : Char → Bool} (cont : Cont) {l : Str}
    (hl : ∀ c ∈ l, p c = false) : optClsThen p cont l = cont l := by
  cases l with
  | nil => rfl
  | cons c t => simp [optClsThen, hl c (List.mem_cons_self c t)]

/-- On an all-digit input of length at least ten, the US-format pattern
matches the first ten digits at the first position. -/
theorem mobilePat3_digits (prev : Option Char) {l : Str}
    (h : ∀ c ∈ l, isDigitC c = true) (hlen : 10 ≤ l.length) :
    mobilePat3 prev l = some (10, l.take 10) := by
  have hdrop : ∀ (n : Nat), ∀ c ∈ l.drop n, isDigitC c = true :=
    fun n c hc => h c (List.mem_of_mem_drop hc)
  have hsep : ∀ (n : Nat), ∀ c ∈ l.drop n, isSepC c = false :=
    fun n c hc => digit_not_sep (hdrop n c hc)
  rw [mobilePat3, wholeCap]
  rw [digitsExactThen_eval 3 _ h (by omega)]
  rw [show optSepThen (digitsExactThen 3 (optSepThen (digitsExactThen 4 endM)))
        (l.drop 3) =
      digitsExactThen 3 (optSepThen (digitsExactThen 4 endM)) (l.drop 3) from
    optClsThen_skip _ (hsep 3)]
  rw [digitsExactThen_eval 3 _ (hdrop 3) (by simp [List.length_drop]; omega)]
  rw [List.drop_drop]
  rw [show optSepThen (digitsExactThen 4 endM) (l.drop 6) =
      digitsExactThen 4 endM (l.drop 6) from optClsThen_skip _ (hsep 6)]
  rw [digitsExactThen_eval 4 _ (hdrop 6) (by simp [List.length_drop]; omega)]
  rfl

/-- A fails-everywhere matcher contributes no findall matches on an
all-digit input (used for the two plus-prefixed patterns). -/
theorem findAllA_of_none (m : Matcher)
    (hm : ∀ prev (l2 : Str), (∀ c ∈ l2, isDigitC c = true) → m prev l2 = none) :
    ∀ (fuel : Nat) (prev : Option Char) (l : Str),
      (∀ c ∈ l, isDigitC c = true) → findAllA m fuel prev l = [] := by
  intro fuel
  induction fuel with
  | zero => intros; rfl
  | succ f ih =>
      intro prev l h
      cases l with
      | nil => simp [findAllA, hm prev [] (by simp)]
      | cons c t =>
          simp only [findAllA]
          rw [hm prev (c :: t) h]
          exact ih (some c) t (fun d hd => h d (List.mem_cons_of_mem c hd))

/-- The plus-prefixed pattern 1 never matches an all-digit input. -/
theorem mobilePat1_digits_none (prev : Option Char) {l : Str}
    (h : ∀ c ∈ l, isDigitC c = true) : mobilePat1 prev l = none := by
  cases l with
  | nil => rfl
  | cons c t =>
      simp [mobilePat1, digit_ne_plus (h c (List.mem_cons_self c t))]

/-- The plus-prefixed pattern 2 never matches an all-digit input. -/
theorem mobilePat2_digits_none (prev : Option Char) {l : Str}
    (h : ∀ c ∈ l, isDigitC c = true) : mobilePat2 prev l = none := by
  cases l with
  | nil => rfl
  | cons c t =>
      simp [mobilePat2, digit_ne_plus (h c (List.mem_cons_self c t))]

/-- The first ten digits clean to themselves and pass the acceptance
test. -/
theorem mobileCandOk_take10 {l : Str} (h : ∀ c ∈ l, isDigitC c = true)
    (hlen : 10 ≤ l.length) :
    mobileCandOk (l.take 10) = true ∧ mobileCandVal (l.take 10) = l.take 10 := by
  have htake : ∀ c ∈ l.take 10, isDigitC c = true :=
    fun c hc => h c (List.mem_of_mem_take hc)
  have hsp : ∀ c ∈ l.take 10, isSpaceC c = false :=
    fun c hc => digit_not_space (htake c hc)
  have htrim : trimL (l.take 10) = l.take 10 := trimL_no_space hsp
  have hclean : cleanMobile (l.take 10) = l.take 10 := cleanMobile_digits htake
  have hlen10 : (l.take 10).length = 10 := by
    simp [List.length_take]
    omega
  constructor
  · rw [mobileCandOk, htrim, hclean]
    simp only [hlen10]
    simp only [pyIsdigit]
    have hne : (l.take 10).isEmpty = false := by
      cases ht : l.take 10 with
      | nil => rw [ht] at hlen10; simp at hlen10
      | cons a b => rfl
    simp [hne, List.all_eq_true.mpr htake]
  · rw [mobileCandVal, htrim, hclean]

/-- C3 amended: for every input consisting solely of ten to fifteen
digits, extract_information returns a mobile equal to the first ten
digits of the input (the earlier US-format pattern consumes exactly ten
digits), hence equal to the digit-only normalized form exactly when the
phone string has exactly ten digits; plus-prefixed candidates always fail
the digit-only acceptance test, so no plus-prefixed form is ever
returned. -/
theorem C3_phone_normalization_amended (l : Str)
    (h : ∀ c ∈ l, isDigitC c = true) (h10 : 10 ≤ l.length)
    (_h15 : l.length ≤ 15) :
    (extract_information l).mobile = some (l.take 10) := by
  have hfind1 : findAll mobilePat1 l = [] :=
    findAllA_of_none mobilePat1 (fun p l2 h2 => mobilePat1_digits_none p h2)
      (l.length + 1) none l h
  have hfind2 : findAll mobilePat2 l = [] :=
    findAllA_of_none mobilePat2 (fun p l2 h2 => mobilePat2_digits_none p h2)
      (l.length + 1) none l h
  have hcand := mobileCandOk_take10 h h10
  have hfind3 : ∃ rest, findAll mobilePat3 l = l.take 10 :: rest := by
    cases hl : l with
    | nil => rw [hl] at h10; simp at h10
    | cons c t =>
        refine ⟨findAllA mobilePat3 (t.length + 1)
          (((c :: t).take 10).getLast?) ((c :: t).drop 10), ?_⟩
        rw [findAll]
        have hm3 : mobilePat3 none (c :: t) = some (10, (c :: t).take 10) := by
          rw [← hl]
          exact mobilePat3_digits none h h10
        simp only [List.length_cons, findAllA, hm3]
        rw [← hl]
        simp only [hl]
        rfl
  obtain ⟨rest, hfind3⟩ := hfind3
  have hmob : extractMobileEI l = some (l.take 10) := by
    rw [extractMobileEI]
    rw [List.findSome?_cons]
    rw [hfind1]
    simp only [List.find?_nil, Option.map_none']
    rw [List.findSome?_cons]
    rw [hfind2]
    simp only [List.find?_nil, Option.map_none']
    rw [List.findSome?_cons]
    rw [hfind3]
    rw [List.find?_cons_of_pos _ hcand.1]
    simp [hcand.2]
  exact hmob

/-- Witness for the amended C3: an eleven-digit message yields the first
ten digits. -/
theorem C3_phone_normalization_amended_witness :
    (extract_information (S "12345678901")).mobile =
      some ((S "12345678901").take 10) := by
  exact C3_phone_normalization_amended (S "12345678901")
    (by decide) (by decide) (by decide)

/-- C3 counterexample: the message 12345678901 is itself a valid
eleven-digit phone string it contains, whose digit-only normalized form
is 12345678901, yet the extractor returns the ten-digit truncation
1234567890 (the US-format pattern fires first). -/
theorem C3_phone_normalization_counterexample :
    validate_mobile (S "12345678901") = true ∧
    containsL (S "12345678901") (S "12345678901") = true ∧
    (extract_information (S "12345678901")).mobile = some (S "1234567890") ∧
    S "1234567890" ≠ S "12345678901" := by
  decide

end GMS
